import Mathlib

/-!
Verification of the dataframe-protocol repository (src/dataframe.py).

The source defines a hierarchy of logical type tags (`DataType` with
plain variants `NullType`, `Boolean`, `Int8`, `Int16`, `Int32`, `Int64`,
`Binary`, `String`, `Object`, and the compound variant `Categorical`),
together with abstract `Column` and `DataFrame` access contracts whose
optional operations default to raising `NotImplementedError`.

The tag hierarchy is embedded as a closed inductive type. The Python
class `String` becomes constructor `stringType` and `NullType` becomes
`nullType` to avoid clashing with the Lean core `String` type; all
other constructor names follow the source class names. `equals` and
`to_string` are direct translations of `PrimitiveType.equals`
(`type(self) == type(other)`), `Categorical.equals`, and the
per-variant `to_string` methods.
-/

/-- The closed set of logical type tags from src/dataframe.py: the nine
plain variants and the compound `Categorical` variant, which carries an
`index_type`, a `category_type` and an `ordered` flag, exactly the three
attributes set by `Categorical.__init__`. -/
inductive DataType where
  | nullType : DataType
  | boolean : DataType
  | int8 : DataType
  | int16 : DataType
  | int32 : DataType
  | int64 : DataType
  | binary : DataType
  | stringType : DataType
  | object : DataType
  | categorical (index_type : DataType) (category_type : DataType)
      (ordered : Bool) : DataType
deriving DecidableEq

/-- Python renders a `bool` via `str.format` as the literal `True` or
`False`; this is the text `Categorical.to_string` interpolates for the
`ordered` field. -/
def pyBoolStr : Bool → String
  | true => "True"
  | false => "False"

/-- Translation of `equals`. A plain variant uses
`PrimitiveType.equals`, which is `type(self) == type(other)`: true
exactly when `other` is the same class, false for every other class
including `Categorical`. A `Categorical` uses `Categorical.equals`:
`other` must be a `Categorical` and the `index_type`, `category_type`
(compared with `==`, which Python dispatches back to `equals`) and
`ordered` fields must agree. -/
def DataType.equals : DataType → DataType → Bool
  | .nullType, .nullType => true
  | .boolean, .boolean => true
  | .int8, .int8 => true
  | .int16, .int16 => true
  | .int32, .int32 => true
  | .int64, .int64 => true
  | .binary, .binary => true
  | .stringType, .stringType => true
  | .object, .object => true
  | .categorical ix1 c1 o1, .categorical ix2 c2 o2 =>
      DataType.equals ix1 ix2 && DataType.equals c1 c2 && (o1 == o2)
  | _, _ => false

/-- Translation of the per-variant `to_string` methods. Each plain
variant returns its fixed literal; `Categorical.to_string` renders
`"categorical(indices={}, categories={}, ordered={})".format(...)`
with the nested tags rendered by `str`, i.e. recursively by their own
`to_string`, and the flag rendered by Python bool formatting. -/
def DataType.to_string : DataType → String
  | .nullType => "null"
  | .boolean => "bool"
  | .int8 => "int8"
  | .int16 => "int16"
  | .int32 => "int32"
  | .int64 => "int64"
  | .binary => "binary"
  | .stringType => "string"
  | .object => "object"
  | .categorical ix cat o =>
      "categorical(indices=" ++ DataType.to_string ix ++
        ", categories=" ++ DataType.to_string cat ++
        ", ordered=" ++ pyBoolStr o ++ ")"

/-- Membership in the `IntegerType` branch of the source class
hierarchy: `Int8`, `Int16`, `Int32` and `Int64` are the classes that
are `isinstance` of `IntegerType`. -/
def DataType.isIntegerType : DataType → Bool
  | .int8 | .int16 | .int32 | .int64 => true
  | _ => false

/-- Translation of `Categorical.__init__` with an explicit `ordered`
argument: it stores its three arguments unchecked (the `IntegerType`
annotation on `index_type` is not enforced by any code). -/
def Categorical.make (index_type : DataType) (category_type : DataType)
    (ordered : Bool) : DataType :=
  DataType.categorical index_type category_type ordered

/-- Translation of a `Categorical(index_type, category_type)` call that
omits `ordered`: the signature declares the default `ordered: bool =
False`, so the stored flag is `false`. -/
def Categorical.makeNoOrdered (index_type : DataType)
    (category_type : DataType) : DataType :=
  Categorical.make index_type category_type false

/-- The single error shape raised by the default method bodies in
src/dataframe.py: every unoverridden optional operation executes
`raise NotImplementedError(msg)` with a fixed message. -/
inductive PyErr where
  | notImplementedError (msg : String) : PyErr
deriving DecidableEq

/-- The `Column` abstract base class. Its two abstract members, `name`
(any value, so the name domain is a type parameter) and `type` (a
`DataType` tag), are the data a concrete subclass must supply; the
remaining methods have default bodies translated below. -/
structure Column (Name : Type) where
  name : Name
  type : DataType

/-- Translation of the default `Column.attrs` property: its body is
`return \x7b\x7d`, the empty dict, for every column, modelled as the
empty association list over any key and value domain. It is a total
function: it returns the mapping and cannot fail. -/
def Column.attrs (K V : Type) {Name : Type} (c : Column Name) :
    List (K × V) :=
  []

/-- Translation of the default `Column.to_numpy`: its body is a single
`raise NotImplementedError("Conversion to NumPy not available")`, so
for any result format `Arr` whatsoever the call produces that error and
no value. -/
def Column.to_numpy (Arr : Type) {Name : Type} (c : Column Name) :
    Except PyErr Arr :=
  Except.error (PyErr.notImplementedError "Conversion to NumPy not available")

/-- Translation of the default `Column.to_arrow` (its `**kwargs` are
never read by the default body, so they are elided): a single
`raise NotImplementedError("Conversion to Arrow not available")`. -/
def Column.to_arrow (Arr : Type) {Name : Type} (c : Column Name) :
    Except PyErr Arr :=
  Except.error (PyErr.notImplementedError "Conversion to Arrow not available")

/-- The `DataFrame` abstract base class. Its abstract members
(`num_columns`, `num_rows`, `column_names`, `get_column`,
`get_column_by_name`) are the data a concrete subclass must supply;
`num_rows` may be unknown, and the two lookups may raise, hence the
`Except` results. The methods with default bodies are translated
below as functions on this structure. -/
structure DataFrame (Name : Type) where
  num_columns : Nat
  num_rows : Option Nat
  column_names : List Name
  get_column : Nat → Except PyErr (Column Name)
  get_column_by_name : Name → Except PyErr (Column Name)

/-- Translation of `DataFrame.__dataframe__`: its body is
`return self`. -/
def DataFrame.__dataframe__ {Name : Type} (df : DataFrame Name) :
    DataFrame Name :=
  df

/-- Translation of the default `DataFrame.row_names` property: a single
`raise NotImplementedError("This DataFrame has no row names")`, for any
row-name element domain `A`. -/
def DataFrame.row_names (A : Type) {Name : Type} (df : DataFrame Name) :
    Except PyErr (List A) :=
  Except.error (PyErr.notImplementedError "This DataFrame has no row names")

/-- Translation of the default `DataFrame.select_columns`: a single
`raise NotImplementedError("select_columns")`. -/
def DataFrame.select_columns {Name : Type} (df : DataFrame Name)
    (indices : List Nat) : Except PyErr (DataFrame Name) :=
  Except.error (PyErr.notImplementedError "select_columns")

/-- Translation of the default `DataFrame.select_columns_by_name`: a
single `raise NotImplementedError("select_columns_by_name")`. -/
def DataFrame.select_columns_by_name {Name : Type} (df : DataFrame Name)
    (names : List Name) : Except PyErr (DataFrame Name) :=
  Except.error (PyErr.notImplementedError "select_columns_by_name")

/-- Translation of the default `DataFrame.to_dict_of_numpy`: a single
`raise NotImplementedError("TODO")`, for any array format `Arr`. -/
def DataFrame.to_dict_of_numpy (Arr : Type) {Name : Type}
    (df : DataFrame Name) : Except PyErr (List (Name × Arr)) :=
  Except.error (PyErr.notImplementedError "TODO")

theorem DataType.equals_iff_eq (a b : DataType) : a.equals b = true ↔ a = b := by
  induction a generalizing b
  all_goals cases b <;> simp [DataType.equals, and_assoc, *]

theorem DataType.equals_eq_decide (a b : DataType) :
    a.equals b = decide (a = b) := by
  by_cases h : a = b
  · subst h
    rw [decide_eq_true rfl]
    exact (DataType.equals_iff_eq a a).2 rfl
  · rw [decide_eq_false h, Bool.eq_false_iff]
    intro hc
    exact h ((DataType.equals_iff_eq a b).1 hc)

/-- C1: Tag equality is purely structural: `a.equals b` is true iff the
two tags are the same structural value (same variant, and for
`Categorical` recursively equal `index_type`, `category_type` and
`ordered` fields). The embedding is a value model with no object
identity, so the right-hand side `a = b` is exactly
"independently constructed tags of the same variant and parameters";
the second conjunct spells out the recursive `Categorical` field
comparison. -/
theorem c1_tag_equality_structural :
    (∀ a b : DataType, a.equals b = true ↔ a = b) ∧
    (∀ ix1 c1 ix2 c2 : DataType, ∀ o1 o2 : Bool,
      (DataType.categorical ix1 c1 o1).equals (DataType.categorical ix2 c2 o2) = true ↔
        (ix1.equals ix2 = true ∧ c1.equals c2 = true ∧ o1 = o2)) := by
  constructor
  · exact DataType.equals_iff_eq
  · intro ix1 c1 ix2 c2 o1 o2
    simp [DataType.equals, and_assoc]

/-- C2: `equals` is an equivalence relation on tags: reflexive,
symmetric (stated as equality of the two boolean results, which gives
symmetry of the relation), and transitive. Totality (never failing on
any pair of tags, plain or `Categorical`) holds by construction: the
embedding of `equals` is a total function on all of
`DataType × DataType`, mirroring the exhaustive dispatch in the
source. -/
theorem c2_equals_equivalence :
    (∀ a : DataType, a.equals a = true) ∧
    (∀ a b : DataType, a.equals b = b.equals a) ∧
    (∀ a b c : DataType, a.equals b = true → b.equals c = true →
      a.equals c = true) := by
  refine ⟨?_, ?_, ?_⟩
  · intro a
    exact (DataType.equals_iff_eq a a).2 rfl
  · intro a b
    rw [DataType.equals_eq_decide, DataType.equals_eq_decide, decide_eq_decide]
    exact eq_comm
  · intro a b c hab hbc
    exact (DataType.equals_iff_eq a c).2
      (((DataType.equals_iff_eq a b).1 hab).trans ((DataType.equals_iff_eq b c).1 hbc))

/-- Witness for C2: the transitivity clause applied at three concrete
`Categorical` tags. -/
theorem c2_equals_equivalence_witness :
    (Categorical.make .int8 .stringType true).equals
      (DataType.categorical .int8 .stringType true) = true :=
  c2_equals_equivalence.2.2 (Categorical.make .int8 .stringType true)
    (DataType.categorical .int8 .stringType true)
    (DataType.categorical .int8 .stringType true) (by decide) (by decide)

/-- C3: `to_string` returns the fixed literal of each plain variant,
and for `Categorical` the text
`categorical(indices=..., categories=..., ordered=...)` with the two
nested tags rendered by their own recursive `to_string` and the flag
rendered as a Python bool. -/
theorem c3_to_string_rendering :
    DataType.nullType.to_string = "null" ∧
    DataType.boolean.to_string = "bool" ∧
    DataType.int8.to_string = "int8" ∧
    DataType.int16.to_string = "int16" ∧
    DataType.int32.to_string = "int32" ∧
    DataType.int64.to_string = "int64" ∧
    DataType.binary.to_string = "binary" ∧
    DataType.stringType.to_string = "string" ∧
    DataType.object.to_string = "object" ∧
    ∀ ix cat : DataType, ∀ o : Bool,
      (DataType.categorical ix cat o).to_string =
        "categorical(indices=" ++ ix.to_string ++
          ", categories=" ++ cat.to_string ++
          ", ordered=" ++ pyBoolStr o ++ ")" := by
  refine ⟨rfl, rfl, rfl, rfl, rfl, rfl, rfl, rfl, rfl, ?_⟩
  intro ix cat o
  rfl

/-- C4: for a column whose `to_numpy` and `to_arrow` are not
overridden, both calls fail with the conversion-unsupported error (the
`NotImplementedError` the source raises, which the spec's taxonomy
names `UnsupportedConversion`) — for every possible target format
`Arr`, so the default can never return data, null, or any placeholder
value. -/
theorem c4_default_conversions_fail :
    ∀ (Name Arr : Type) (c : Column Name),
      Column.to_numpy Arr c =
        Except.error (PyErr.notImplementedError "Conversion to NumPy not available") ∧
      Column.to_arrow Arr c =
        Except.error (PyErr.notImplementedError "Conversion to Arrow not available") := by
  intro Name Arr c
  exact ⟨rfl, rfl⟩

/-- C5: the self-referential accessor `__dataframe__` always succeeds
and returns the very frame it was called on, so it is a fixed point
under repeated application. -/
theorem c5_dataframe_fixed_point :
    ∀ (Name : Type) (df : DataFrame Name),
      DataFrame.__dataframe__ df = df ∧
      DataFrame.__dataframe__ (DataFrame.__dataframe__ df) =
        DataFrame.__dataframe__ df := by
  intro Name df
  exact ⟨rfl, rfl⟩

/-- C6: for a data frame on which the optional operations are not
overridden, `row_names`, `select_columns`, `select_columns_by_name` and
`to_dict_of_numpy` each fail synchronously with a `NotImplementedError`
(the spec's `NotImplemented` kind), for every element/array domain and
every argument — so none of them can return an empty or placeholder
value. -/
theorem c6_optional_defaults_not_implemented :
    ∀ (Name A Arr : Type) (df : DataFrame Name)
      (indices : List Nat) (names : List Name),
      DataFrame.row_names A df =
        Except.error (PyErr.notImplementedError "This DataFrame has no row names") ∧
      DataFrame.select_columns df indices =
        Except.error (PyErr.notImplementedError "select_columns") ∧
      DataFrame.select_columns_by_name df names =
        Except.error (PyErr.notImplementedError "select_columns_by_name") ∧
      DataFrame.to_dict_of_numpy Arr df =
        Except.error (PyErr.notImplementedError "TODO") := by
  intro Name A Arr df indices names
  exact ⟨rfl, rfl, rfl, rfl⟩

/-- C7: for a column whose `attrs` is not overridden, reading `attrs`
returns the empty mapping, for every key and value domain; the default
is a total function, so it never fails. -/
theorem c7_attrs_default_empty :
    ∀ (K V Name : Type) (c : Column Name),
      Column.attrs K V c = ([] : List (K × V)) := by
  intro K V Name c
  rfl

/-- C8: `to_string` is deterministic — two renderings of the same tag
are identical text (the embedding is a pure function of the tag) — and
consequently tags related by `equals` render to the same text. -/
theorem c8_to_string_deterministic :
    ∀ a b : DataType,
      a.to_string = a.to_string ∧
      (a.equals b = true → a.to_string = b.to_string) := by
  intro a b
  refine ⟨rfl, fun h => ?_⟩
  rw [(DataType.equals_iff_eq a b).1 h]

/-- Witness for C8: two syntactically different constructions of the
same `Categorical` tag render identically. -/
theorem c8_to_string_deterministic_witness :
    (Categorical.make .int32 .stringType false).to_string =
      (Categorical.makeNoOrdered .int32 .stringType).to_string :=
  (c8_to_string_deterministic (Categorical.make .int32 .stringType false)
    (Categorical.makeNoOrdered .int32 .stringType)).2 (by decide)

/-- C9: a `Categorical` constructed without an explicit `ordered`
argument stores `ordered = false`, and hence (in particular for every
integer-variant index type) equals the tag constructed with an explicit
`false`. -/
theorem c9_ordered_defaults_false :
    ∀ ix cat : DataType,
      Categorical.makeNoOrdered ix cat = DataType.categorical ix cat false ∧
      (ix.isIntegerType = true →
        (Categorical.makeNoOrdered ix cat).equals
          (Categorical.make ix cat false) = true) := by
  intro ix cat
  exact ⟨rfl, fun _ => (DataType.equals_iff_eq _ _).2 rfl⟩

/-- Witness for C9: the default-ordered construction at the concrete
integer index type `Int8` and category type `String`. -/
theorem c9_ordered_defaults_false_witness :
    (Categorical.makeNoOrdered .int8 .stringType).equals
      (Categorical.make .int8 .stringType false) = true :=
  (c9_ordered_defaults_false .int8 .stringType).2 (by decide)

/-- C10: the `Categorical` constructor validates nothing: for every tag
`t` — integer or not, including `String` or a nested `Categorical` —
construction with `index_type = t` succeeds and yields the tag with
exactly the given fields, and `equals` and `to_string` are defined
(total) on the result, computing the structural comparison and the
usual rendering. -/
theorem c10_constructor_unvalidated :
    ∀ t cat : DataType, ∀ o : Bool,
      Categorical.make t cat o = DataType.categorical t cat o ∧
      (Categorical.make t cat o).equals (Categorical.make t cat o) = true ∧
      (Categorical.make t cat o).to_string =
        "categorical(indices=" ++ t.to_string ++
          ", categories=" ++ cat.to_string ++
          ", ordered=" ++ pyBoolStr o ++ ")" := by
  intro t cat o
  exact ⟨rfl, (DataType.equals_iff_eq _ _).2 rfl, rfl⟩

example : (Categorical.make .int8 .stringType true).to_string =
    "categorical(indices=int8, categories=string, ordered=True)" := by decide

example : (Categorical.makeNoOrdered .int16 (Categorical.make .int8 .boolean false)).to_string =
    "categorical(indices=int16, categories=categorical(indices=int8, categories=bool, ordered=False), ordered=False)" := by decide

example : (Categorical.make .int8 .stringType true).equals (Categorical.make .int8 .stringType true) = true := by decide

example : (Categorical.make .int8 .stringType true).equals (Categorical.make .int8 .stringType false) = false := by decide

example : DataType.int8.equals .int16 = false := by decide

example : DataType.object.equals (Categorical.make .int8 .object false) = false := by decide
